import Mathlib

/-
  Verification of the whatsapp-telegram-bridge repository.

  Shallow embedding of the connection-lifecycle and message-routing code:

  * src/src/whatsapp.js        -- two concatenated module variants; the second
                                  variant (lines 336-698) carries the handlers
                                  cited by the claims: the 401/backoff close
                                  handler (511-535), the 401/clear-auth close
                                  handler (570-587), the messages.upsert
                                  forwarder (595-634) and handleTelegramUpdate
                                  (637-671).
  * src/src/models/Mapping.js  -- Mapping schema with a TTL index on createdAt.
  * src/src/telegram.js        -- registerHandlers reply routing.
  * src/unnamed/part_002       -- Processed schema (idempotency ledger).
  * src/unnamed/part_004       -- alternative whatsapp module (loggedOut close
                                  handling, Mapping writes, auth persistence).

  JavaScript data is modelled by plain Lean structures; optional/absent fields
  by Option; Mongo collections by lists of records; asynchronous calls that can
  reject by explicit result flags in an environment record, and try/catch by
  propagating an Option String error out of the try-block body.
-/

/-- A Telegram message object as consumed by handleTelegramUpdate
(src/src/whatsapp.js lines 637-671): message_id, chat.id (optional because the
code reads it with optional chaining), reply_to_message.message_id when the
update is a reply, and the optional text and caption fields. -/
structure TgMessage where
  message_id : Nat
  chatId : Option Int
  replyToMessageId : Option Nat
  text : Option String
  caption : Option String
deriving Repr, DecidableEq

/-- A Telegram webhook update: update.message or update.edited_message. -/
structure TgUpdate where
  message : Option TgMessage
  edited_message : Option TgMessage
deriving Repr, DecidableEq

/-- One document of the MessageMap collection (MessageMapSchema,
src/src/whatsapp.js lines 351-357). -/
structure MessageMapRec where
  waChatId : String
  waMessageId : String
  telegramChatId : String
  telegramMessageId : Nat
  createdAt : Nat
deriving Repr, DecidableEq

/-- JavaScript a || b for two possibly-absent objects: the first present one. -/
def jsOrOpt {α : Type} (a b : Option α) : Option α :=
  match a with
  | some x => some x
  | none => b

/-- JavaScript string disjunction s || t: s unless it is absent or empty
(the empty string is falsy). -/
def jsStringOr (a : Option String) (b : String) : String :=
  match a with
  | none => b
  | some s => if s = "" then b else s

/-- The reply text taken by handleTelegramUpdate: msg.text || msg.caption || "".
(src/src/whatsapp.js line 655). -/
def replyTextOf (m : TgMessage) : String :=
  jsStringOr m.text (jsStringOr m.caption "")

/-- JavaScript String(msg.chat?.id): the decimal rendering of the id, or the
string "undefined" when chat is absent. -/
def chatKey (m : TgMessage) : String :=
  match m.chatId with
  | none => "undefined"
  | some i => toString i

/-- The record with the greatest createdAt among a list (first one wins on
ties), mirroring a Mongo findOne with sort createdAt descending. -/
def latestByCreatedAt : List MessageMapRec → Option MessageMapRec
  | [] => none
  | r :: rs =>
    match latestByCreatedAt rs with
    | none => some r
    | some s => if r.createdAt < s.createdAt then some s else some r

/-- MessageMap.findOne on telegramChatId and telegramMessageId, sorted by
createdAt descending (src/src/whatsapp.js lines 645-648). -/
def findMapping (store : List MessageMapRec) (tgChat : String) (tgMsgId : Nat) :
    Option MessageMapRec :=
  latestByCreatedAt
    (store.filter fun r => r.telegramChatId == tgChat && r.telegramMessageId == tgMsgId)

/-- Environment of one handleTelegramUpdate invocation: the MessageMap store,
the Processed idempotency-ledger collection (src/unnamed/part_002; present in
the deployment but never read or written by any handler), and whether each
external call resolves or rejects. -/
structure HandlerEnv where
  mappings : List MessageMapRec
  processedLedger : List String
  waSendOk : Bool
  botTokenSet : Bool
  tgSendOk : Bool
deriving Repr, DecidableEq

/-- Observable sends performed by the handler: messages sent to WhatsApp jids
and messages sent to Telegram chats (the user-visible acknowledgments). -/
structure Effects where
  waSends : List (String × String)
  tgSends : List (Int × String)
deriving Repr, DecidableEq

/-- The try-block body of handleTelegramUpdate (src/src/whatsapp.js lines
638-667; the first module variant, lines 268-297, has the same control
structure).  Returns the sends performed and the thrown error, if the body
threw before completing. -/
def handleTgBody (env : HandlerEnv) (update : Option TgUpdate) :
    Effects × Option String :=
  match update with
  | none => (⟨[], []⟩, none)
  | some u =>
    match jsOrOpt u.message u.edited_message with
    | none => (⟨[], []⟩, none)
    | some msg =>
      match msg.replyToMessageId with
      | none => (⟨[], []⟩, none)
      | some replyToId =>
        if replyToId = 0 then
          (⟨[], []⟩, none)
        else
          match findMapping env.mappings (chatKey msg) replyToId with
          | none => (⟨[], []⟩, none)
          | some mapping =>
            let replyText := replyTextOf msg
            if replyText = "" then
              (⟨[], []⟩, none)
            else if env.waSendOk then
              let eff1 : Effects :=
                ⟨[(mapping.waChatId, "Reply from Telegram:\n\n" ++ replyText)], []⟩
              if env.botTokenSet then
                match msg.chatId with
                | none => (eff1, some "TypeError: cannot read id of undefined")
                | some c =>
                  if env.tgSendOk then
                    ({ eff1 with
                        tgSends := [(c, "Delivered reply to WhatsApp (to "
                          ++ mapping.waChatId ++ ")")] }, none)
                  else
                    (eff1, some "telegram sendMessage rejected")
              else
                (eff1, none)
            else
              (⟨[], []⟩, some "sock.sendMessage rejected")

/-- handleTelegramUpdate: the body wrapped in try/catch.  The components are
the sends performed, the error caught and logged by the catch block (if any),
and the outward result of the returned promise. -/
def handleTelegramUpdate (env : HandlerEnv) (update : Option TgUpdate) :
    Effects × Option String × Except String Unit :=
  ((handleTgBody env update).1, (handleTgBody env update).2, Except.ok ())

/-- Deliver a list of webhook updates to the handler one after another.  The
handler reads the MessageMap store and writes no collection, so no state is
threaded between invocations. -/
def processUpdates (env : HandlerEnv) : List (Option TgUpdate) → Effects
  | [] => ⟨[], []⟩
  | u :: us =>
    let e := (handleTelegramUpdate env u).1
    let rest := processUpdates env us
    ⟨e.waSends ++ rest.waSends, e.tgSends ++ rest.tgSends⟩

/-- Actions taken by the close branch of the first connection.update handler of
the second whatsapp.js variant (src/src/whatsapp.js lines 511-535), which owns
the reconnectAttempts counter: given the configured maxReconnectAttempts, the
current counter, and lastDisconnect statusCode, it yields the new counter, the
scheduled reconnect delay in milliseconds (when one is set by setTimeout), and
whether clearAuthFromMongoAndDisk was invoked (this handler never invokes it;
its over-cap log line says not to auto-clear auth). -/
structure CloseActions where
  attempts : Nat
  scheduledDelayMs : Option Nat
  clearAuthInvoked : Bool
deriving Repr, DecidableEq

def waCloseStep (maxReconnectAttempts attempts : Nat) (statusCode : Option Nat) :
    CloseActions :=
  if statusCode = some 401 then
    if attempts + 1 ≤ maxReconnectAttempts then
      ⟨attempts + 1, some ((attempts + 1) * 2000), false⟩
    else
      ⟨attempts + 1, none, false⟩
  else
    ⟨attempts, none, false⟩

/-- Connection events seen by that handler: connection === open, or
connection === close with the given statusCode. -/
inductive ConnEvent
  | opened
  | closed (statusCode : Option Nat)
deriving Repr, DecidableEq

/-- One step of the connection.update handler at src/src/whatsapp.js lines
497-536: open resets reconnectAttempts to 0 and schedules nothing; close is
handled by waCloseStep. -/
def connUpdateStep (maxA attempts : Nat) : ConnEvent → Nat × Option Nat
  | .opened => (0, none)
  | .closed code =>
    let r := waCloseStep maxA attempts code
    (r.attempts, r.scheduledDelayMs)

/-- The reconnect delays scheduled over a run of consecutive close events
(no intervening open), threading the reconnectAttempts counter. -/
def runCloseDelays (maxA : Nat) : Nat → List (Option Nat) → List Nat
  | _, [] => []
  | a, c :: cs =>
    match connUpdateStep maxA a (.closed c) with
    | (a2, some d) => d :: runCloseDelays maxA a2 cs
    | (a2, none) => runCloseDelays maxA a2 cs

/-- Actions of the close branch of the second connection.update handler of the
same variant (src/src/whatsapp.js lines 570-587): on statusCode 401 it invokes
clearAuthFromMongoAndDisk and schedules process exit; on any other close it
only logs. -/
structure V3CloseActions where
  clearAuthInvoked : Bool
  exitScheduled : Bool
deriving Repr, DecidableEq

def waCloseStepClearing (statusCode : Option Nat) : V3CloseActions :=
  if statusCode = some 401 then ⟨true, true⟩ else ⟨false, false⟩

/-- The close branch of the part_004 connection.update handler
(src/unnamed/part_004 lines 185-196): when the close reason is classified
loggedOut no reconnect is scheduled, otherwise a reconnect is scheduled after
5000 ms. -/
def part004CloseReconnectDelay (loggedOut : Bool) : Option Nat :=
  if loggedOut then none else some 5000

/-- One document of the Mapping collection (src/src/models/Mapping.js, second
schema, lines 14-21): telegramMsgId is the unique key, waJid the primary
conversation id, createdAt carries a TTL index. -/
structure MappingRec where
  telegramMsgId : Nat
  waJid : String
  createdAt : Nat
deriving Repr, DecidableEq

/-- TTL of the Mapping collection: the createdAt field expires after 14 days
(expires: '14d' in src/src/models/Mapping.js line 17), in seconds. -/
def mappingTTLSeconds : Nat := 14 * 24 * 60 * 60

/-- Mapping.updateOne({telegramMsgId: id}, doc, {upsert: true}): replace the
first (by the unique index: only) record with the key, else append. -/
def putMapping : List MappingRec → Nat → String → Nat → List MappingRec
  | [], id, jid, now => [⟨id, jid, now⟩]
  | r :: rs, id, jid, now =>
    if r.telegramMsgId = id then ⟨id, jid, now⟩ :: rs
    else r :: putMapping rs id jid now

/-- Mongo TTL expiry makes a document whose createdAt lies at least the TTL in
the past behave exactly like an absent document. -/
def mappingLive (now : Nat) (r : MappingRec) : Bool :=
  now < r.createdAt + mappingTTLSeconds

/-- Mapping.findOne({telegramMsgId: id}) against a store subject to TTL
expiry, observed at time now. -/
def getMapping (store : List MappingRec) (id : Nat) (now : Nat) : Option String :=
  (store.find? fun r => r.telegramMsgId == id && mappingLive now r).map (fun r => r.waJid)

/-- The durable stores touched by the primary-to-secondary forward path: the
MessageMap collection and the Processed idempotency ledger
(src/unnamed/part_002; defined in the repository but never consulted). -/
structure BridgeStores where
  messageMaps : List MessageMapRec
  processed : List String
deriving Repr, DecidableEq

/-- Messages sent back to the WhatsApp sender by the messages.upsert handler. -/
inductive WaOutMsg
  | forwardedAck (telegramMessageId : Nat)
  | forwardFailed
  | notConfigured
deriving Repr, DecidableEq

/-- Outcome handling of one primary-to-secondary forward attempt
(src/src/whatsapp.js lines 612-629, same structure at lines 225-252): given
whether Telegram is configured and the send outcome (some message_id when
resp.ok, none on failure), the handler writes a MessageMap record and acks the
sender only on success; on failure it only sends a failure notice. -/
def forwardResultStep (st : BridgeStores) (telegramConfigured : Bool)
    (waChatId waMsgId tgChatId : String) (sendResult : Option Nat) (now : Nat) :
    BridgeStores × List WaOutMsg :=
  if telegramConfigured then
    match sendResult with
    | some mid =>
      ({ st with
          messageMaps := st.messageMaps ++ [⟨waChatId, waMsgId, tgChatId, mid, now⟩] },
        [.forwardedAck mid])
    | none => (st, [.forwardFailed])
  else
    (st, [.notConfigured])

/-- The corresponding step of the part_004 messages.upsert handler (lines
246-267): Mapping.updateOne runs only after telegramBotRef.sendMessage
resolved with a message_id; when the send throws, control jumps to the catch
block and no store write happens.  The Bool records whether the WhatsApp
delivery ack was attempted. -/
def part004ForwardStep (maps : List MappingRec) (sendResult : Option Nat)
    (senderJid : String) (now : Nat) : List MappingRec × Bool :=
  match sendResult with
  | some mid => (putMapping maps mid senderJid now, true)
  | none => (maps, false)

/-- Byte-level base64 as used by Buffer.toString with base64 encoding
(src/src/whatsapp.js line 417): each group of three input bytes becomes four
six-bit values; a trailing group of one or two bytes becomes two or three.
The fixed 64-character alphabet is a bijection on six-bit values and is left
out of the model, as is the padding with the equals sign. -/
def b64encode : List Nat → List Nat
  | [] => []
  | [a] => [a / 4, a % 4 * 16]
  | [a, b] => [a / 4, a % 4 * 16 + b / 16, b % 16 * 4]
  | a :: b :: c :: rest =>
    a / 4 :: (a % 4 * 16 + b / 16) :: (b % 16 * 4 + c / 64) :: c % 64
      :: b64encode rest

/-- Byte-level base64 decoding as used by Buffer.from with base64 encoding
(src/src/whatsapp.js line 402). -/
def b64decode : List Nat → List Nat
  | [s1, s2] => [s1 * 4 + s2 / 16]
  | [s1, s2, s3] => [s1 * 4 + s2 / 16, s2 % 16 * 16 + s3 / 4]
  | s1 :: s2 :: s3 :: s4 :: rest =>
    (s1 * 4 + s2 / 16) :: (s2 % 16 * 16 + s3 / 4) :: (s3 % 4 * 64 + s4)
      :: b64decode rest
  | _ => []

/-- One document of the AuthFile collection (AuthFileSchema,
src/src/whatsapp.js lines 346-350): the relative path (unique key) and the
base64 content. -/
structure AuthFileDoc where
  path : String
  contentBase64 : List Nat
deriving Repr, DecidableEq

/-- AuthFile.updateOne({path: p}, doc, {upsert: true}). -/
def upsertAuthFile : List AuthFileDoc → String → List Nat → List AuthFileDoc
  | [], p, c => [⟨p, c⟩]
  | d :: ds, p, c =>
    if d.path = p then ⟨p, c⟩ :: ds
    else d :: upsertAuthFile ds p c

/-- persistAuthFilesToMongo (src/src/whatsapp.js lines 408-425): every file
under authDir, given as relative path and byte content, is upserted into the
AuthFile collection with its content base64-encoded. -/
def persistAuthFilesToMongo (docs : List AuthFileDoc)
    (files : List (String × List Nat)) : List AuthFileDoc :=
  files.foldl (fun ds f => upsertAuthFile ds f.1 (b64encode f.2)) docs

/-- restoreAuthFilesFromMongo (src/src/whatsapp.js lines 392-406): when the
collection is empty nothing is written and the bridge starts fresh; otherwise
every stored document is written back to disk with its content decoded. -/
def restoreAuthFilesFromMongo (docs : List AuthFileDoc) :
    List (String × List Nat) :=
  match docs with
  | [] => []
  | _ => docs.map fun d => (d.path, b64decode d.contentBase64)

/-- A Telegram message as consumed by the registerHandlers listener
(src/src/telegram.js lines 34-83): the chat id (always present on a real
message), the optional text, and reply_to_message.message_id when present. -/
structure RhMsg where
  chatId : Int
  text : Option String
  replyToMessageId : Option Nat
deriving Repr, DecidableEq

/-- User-visible acknowledgments the registerHandlers listener sends to the
Telegram chat, one constructor per distinguishable outcome text. -/
inductive RhAck
  | replyForwarded (jid : String)
  | replyFailed
  | fallbackForwarded
  | fallbackFailed
  | mappingMissNotice
  | instructional
deriving Repr, DecidableEq

/-- Environment of one registerHandlers invocation: the configured chat id
(TELEGRAM_CHAT_ID as a string), the Mapping collection, whether waSock with a
sendMessage function was passed, whether that send resolves, the optional
fallback WHATSAPP_ID, and whether the fallback send resolves. -/
structure RhEnv where
  configChatId : String
  mappings : List MappingRec
  waSockPresent : Bool
  waSendOk : Bool
  whatsappId : Option String
  fallbackSendOk : Bool
deriving Repr, DecidableEq

/-- Effects of the registerHandlers listener: sends to WhatsApp jids and
acknowledgments into the Telegram chat. -/
structure RhEffects where
  waSends : List (String × String)
  acks : List RhAck
deriving Repr, DecidableEq

/-- Whitespace as stripped by the JavaScript trim method. -/
def jsWhitespace (c : Char) : Bool :=
  c = ' ' || c = '\t' || c = '\n' || c = '\r'

/-- JavaScript msg.text.trim(): strip leading and trailing whitespace. -/
def jsTrim (s : String) : String :=
  ⟨((s.data.dropWhile jsWhitespace).reverse.dropWhile jsWhitespace).reverse⟩

/-- msg.text?.trim() followed by the falsy check if (!text) return. -/
def rhText (m : RhMsg) : Option String :=
  match m.text with
  | none => none
  | some s => if jsTrim s = "" then none else some (jsTrim s)

/-- The fallback branch of the registerHandlers listener: forward to
WHATSAPP_ID when configured and the socket is usable, else send the
could-not-find-mapping notice (src/src/telegram.js lines 61-75). -/
def rhFallback (env : RhEnv) (text : String) : RhEffects :=
  match env.whatsappId with
  | some wid =>
    if env.waSockPresent then
      if env.fallbackSendOk then
        ⟨[(wid, "From Telegram (fallback): " ++ text)], [.fallbackForwarded]⟩
      else
        ⟨[], [.fallbackFailed]⟩
    else
      ⟨[], [.mappingMissNotice]⟩
  | none => ⟨[], [.mappingMissNotice]⟩

/-- The message listener registered by registerHandlers (src/src/telegram.js
lines 34-83): ignore other chats and empty text; route replies through the
Mapping collection, then through the optional WHATSAPP_ID fallback, then to a
mapping-miss notice; instruct on non-reply messages. -/
def registerHandlersOnMessage (env : RhEnv) (m : RhMsg) : RhEffects :=
  if toString m.chatId ≠ env.configChatId then ⟨[], []⟩
  else
    match rhText m with
    | none => ⟨[], []⟩
    | some text =>
      match m.replyToMessageId with
      | some originalId =>
        match env.mappings.find? (fun r => r.telegramMsgId == originalId) with
        | some mapping =>
          if env.waSockPresent then
            if env.waSendOk then
              ⟨[(mapping.waJid, text)], [.replyForwarded mapping.waJid]⟩
            else
              ⟨[], [.replyFailed]⟩
          else
            rhFallback env text
        | none => rhFallback env text
      | none => ⟨[], [.instructional]⟩

/-- C10: for every input value passed to handleTelegramUpdate, including a
null update, an update with no message, a non-reply update, and inputs on
which an internal call rejects, the function resolves without throwing: its
outward result is ok, and exactly the error thrown inside the try block (if
any) is what the catch block logs. -/
theorem c10_handler_never_rejects (env : HandlerEnv) (update : Option TgUpdate) :
    (handleTelegramUpdate env update).2.2 = Except.ok () ∧
    (handleTelegramUpdate env update).2.1 = (handleTgBody env update).2 :=
  ⟨rfl, rfl⟩

/-- C7: when the secondary-side send of a primary-to-secondary forward fails,
neither a MessageMap record nor a Processed ledger record is written: the
whatsapp.js handler returns the stores unchanged with only a failure notice,
and the part_004 handler likewise leaves the Mapping store unchanged. -/
theorem c7_no_store_write_on_failed_send :
    (∀ (st : BridgeStores) (waChatId waMsgId tgChatId : String) (now : Nat),
        forwardResultStep st true waChatId waMsgId tgChatId none now
          = (st, [WaOutMsg.forwardFailed])) ∧
    (∀ (maps : List MappingRec) (jid : String) (now : Nat),
        (part004ForwardStep maps none jid now).1 = maps) :=
  ⟨fun _ _ _ _ _ => rfl, fun _ _ _ => rfl⟩

/-- C2 counterexample: a close whose reason is the credential-rejected status
401 arriving with reconnectAttempts at 0 does schedule a reconnect (after
2000 ms) in the whatsapp.js handler, contradicting the claim that a
terminal/unauthenticated close never schedules one. -/
theorem c2_counterexample :
    (waCloseStep 5 0 (some 401)).scheduledDelayMs = some 2000 ∧
    (waCloseStep 5 0 (some 401)).scheduledDelayMs ≠ none := by decide

/-- C2 amended: a close the code itself classifies as terminal schedules no
reconnect: in the part_004 handler a loggedOut close schedules nothing, and in
the whatsapp.js handler a close arriving once the attempt counter has reached
the configured maximum schedules nothing; the counter never decreases on a
close, so absent an open no later close of that lifecycle schedules one
either.  A 401 close with attempts remaining, however, does schedule a
reconnect. -/
theorem c2_amended_no_reconnect_when_terminal :
    (∀ loggedOut, loggedOut = true → part004CloseReconnectDelay loggedOut = none) ∧
    (∀ maxA a code, maxA ≤ a → (waCloseStep maxA a code).scheduledDelayMs = none) ∧
    (∀ maxA a code, a ≤ (waCloseStep maxA a code).attempts) := by
  refine ⟨fun lo h => by simp [part004CloseReconnectDelay, h], ?_, ?_⟩
  · intro maxA a code h
    unfold waCloseStep
    split
    · split
      · next hle => exact absurd hle (by omega)
      · rfl
    · rfl
  · intro maxA a code
    unfold waCloseStep
    split
    · split
      · exact Nat.le_succ a
      · exact Nat.le_succ a
    · exact le_refl a

/-- Witness for c2_amended_no_reconnect_when_terminal: a loggedOut close in
part_004 and a 401 close at the attempt cap in whatsapp.js schedule nothing. -/
theorem c2_amended_witness :
    part004CloseReconnectDelay true = none ∧
    (waCloseStep 5 5 (some 401)).scheduledDelayMs = none :=
  ⟨c2_amended_no_reconnect_when_terminal.1 true rfl,
   c2_amended_no_reconnect_when_terminal.2.1 5 5 (some 401) (le_refl 5)⟩

/-- C3 counterexample: the close handler at src/src/whatsapp.js lines 570-587
invokes clearAuthFromMongoAndDisk automatically when a close carries status
401, with no operator request, and then schedules process exit. -/
theorem c3_counterexample :
    (waCloseStepClearing (some 401)).clearAuthInvoked = true ∧
    (waCloseStepClearing (some 401)).exitScheduled = true := by decide

/-- C3 amended: the close/reconnect handler at lines 511-535 never invokes the
credential clear for any close reason or counter state, and the handler at
lines 570-587 invokes it only on a 401 close (where it does so automatically,
without an operator request). -/
theorem c3_amended_clear_only_on_401_close :
    (∀ maxA a code, (waCloseStep maxA a code).clearAuthInvoked = false) ∧
    (∀ code, code ≠ some 401 → (waCloseStepClearing code).clearAuthInvoked = false) := by
  constructor
  · intro maxA a code
    unfold waCloseStep
    split
    · split
      · rfl
      · rfl
    · rfl
  · intro code h
    simp [waCloseStepClearing, h]

/-- Witness for c3_amended_clear_only_on_401_close at a non-401 close. -/
theorem c3_amended_witness :
    (waCloseStep 5 2 (some 515)).clearAuthInvoked = false ∧
    (waCloseStepClearing (some 515)).clearAuthInvoked = false :=
  ⟨c3_amended_clear_only_on_401_close.1 5 2 (some 515),
   c3_amended_clear_only_on_401_close.2 (some 515) (by decide)⟩

/-- C1: with the Processed ledger already containing a key for the update,
delivering the identical reply update (replying to a valid mapping) twice
produces two WhatsApp sends, one per delivery: no handler consults or writes
the ledger, so redelivery is not suppressed. -/
theorem c1_duplicate_update_sends_twice :
    (processUpdates
      { mappings := [⟨"wa1", "M1", "5", 7, 100⟩], processedLedger := ["tg:5:10"],
        waSendOk := true, botTokenSet := true, tgSendOk := true }
      [some ⟨some ⟨10, some 5, some 7, some "hi back", none⟩, none⟩,
       some ⟨some ⟨10, some 5, some 7, some "hi back", none⟩, none⟩]).waSends.length
      = 2 := by decide

/-- C6 counterexample: a reply update whose mapping lookup misses produces no
Telegram acknowledgment and no WhatsApp send at all in handleTelegramUpdate --
the miss is only logged, so the sender sees silence rather than a
mapping-not-found notice. -/
theorem c6_counterexample :
    (handleTelegramUpdate
      { mappings := [], processedLedger := [], waSendOk := true,
        botTokenSet := true, tgSendOk := true }
      (some ⟨some ⟨10, some 5, some 7, some "hi back", none⟩, none⟩)).1
      = ⟨[], []⟩ := by decide

/-- C4: after a successful forward records a mapping under the fresh
secondary-assigned id, a lookup before the TTL elapses returns the original
primary conversation id, and a lookup at or after the TTL returns absent,
indistinguishable from a record that never existed. -/
theorem c4_mapping_ttl (store : List MappingRec) (id : Nat) (jid : String)
    (t0 t1 : Nat) (hfresh : ∀ r ∈ store, r.telegramMsgId ≠ id) :
    (t1 < t0 + mappingTTLSeconds →
      getMapping (putMapping store id jid t0) id t1 = some jid) ∧
    (t0 + mappingTTLSeconds ≤ t1 →
      getMapping (putMapping store id jid t0) id t1 = none) := by
  induction store with
  | nil =>
    constructor
    · intro h
      simp [putMapping, getMapping, List.find?, mappingLive, h]
    · intro h
      have hlive : mappingLive t1 (⟨id, jid, t0⟩ : MappingRec) = false := by
        simp only [mappingLive, decide_eq_false_iff_not]
        omega
      simp [putMapping, getMapping, List.find?, hlive]
  | cons r rs ih =>
    have hr : r.telegramMsgId ≠ id := hfresh r (List.mem_cons_self r rs)
    have ih2 := ih fun x hx => hfresh x (List.mem_cons_of_mem r hx)
    have hp : ¬ ((fun x : MappingRec => x.telegramMsgId == id && mappingLive t1 x) r
        = true) := by
      simp [hr]
    constructor
    · intro h
      have h2 := ih2.1 h
      simp only [getMapping] at h2 ⊢
      simp only [putMapping, if_neg hr]
      rw [@List.find?_cons_of_neg _
        (fun x : MappingRec => x.telegramMsgId == id && mappingLive t1 x) r
        (putMapping rs id jid t0) hp]
      exact h2
    · intro h
      have h2 := ih2.2 h
      simp only [getMapping] at h2 ⊢
      simp only [putMapping, if_neg hr]
      rw [@List.find?_cons_of_neg _
        (fun x : MappingRec => x.telegramMsgId == id && mappingLive t1 x) r
        (putMapping rs id jid t0) hp]
      exact h2

/-- Witness for c4_mapping_ttl: a mapping stored at time 100 resolves at time
150 and is absent once the 14-day TTL has elapsed. -/
theorem c4_mapping_ttl_witness :
    getMapping (putMapping [] 7 "wa1" 100) 7 150 = some "wa1" ∧
    getMapping (putMapping [] 7 "wa1" 100) 7 (100 + mappingTTLSeconds) = none := by
  refine ⟨(c4_mapping_ttl [] 7 "wa1" 100 150 (by simp)).1 ?_,
          (c4_mapping_ttl [] 7 "wa1" 100 (100 + mappingTTLSeconds) (by simp)).2
            (le_refl _)⟩
  norm_num [mappingTTLSeconds]

/-- A 401 close below the attempt cap prepends its delay to the run. -/
theorem runCloseDelays_cons_401_le (maxA a : Nat) (cs : List (Option Nat))
    (h : a + 1 ≤ maxA) :
    runCloseDelays maxA a (some 401 :: cs)
      = (a + 1) * 2000 :: runCloseDelays maxA (a + 1) cs := by
  simp [runCloseDelays, connUpdateStep, waCloseStep, h]

/-- A 401 close at or above the attempt cap schedules nothing. -/
theorem runCloseDelays_cons_401_gt (maxA a : Nat) (cs : List (Option Nat))
    (h : ¬ a + 1 ≤ maxA) :
    runCloseDelays maxA a (some 401 :: cs) = runCloseDelays maxA (a + 1) cs := by
  simp [runCloseDelays, connUpdateStep, waCloseStep, h]

/-- A non-401 close schedules nothing and leaves the counter unchanged. -/
theorem runCloseDelays_cons_other (maxA a : Nat) (c : Option Nat)
    (cs : List (Option Nat)) (h : c ≠ some 401) :
    runCloseDelays maxA a (c :: cs) = runCloseDelays maxA a cs := by
  simp [runCloseDelays, connUpdateStep, waCloseStep, h]

/-- Every delay scheduled over a run starting at counter a is at least
(a + 1) * 2000 milliseconds. -/
theorem runCloseDelays_lower_bound (maxA : Nat) :
    ∀ (cs : List (Option Nat)) (a d : Nat), d ∈ runCloseDelays maxA a cs →
      (a + 1) * 2000 ≤ d := by
  intro cs
  induction cs with
  | nil => intro a d h; simp [runCloseDelays] at h
  | cons c cs ih =>
    intro a d h
    by_cases h401 : c = some 401
    · subst h401
      by_cases hle : a + 1 ≤ maxA
      · rw [runCloseDelays_cons_401_le maxA a cs hle] at h
        rcases List.mem_cons.mp h with h1 | h2
        · omega
        · have := ih (a + 1) d h2
          omega
      · rw [runCloseDelays_cons_401_gt maxA a cs hle] at h
        have := ih (a + 1) d h
        omega
    · rw [runCloseDelays_cons_other maxA a c cs h401] at h
      exact ih a d h

/-- The scheduled delays over any run of consecutive closes form a
non-decreasing chain. -/
theorem runCloseDelays_chain (maxA : Nat) :
    ∀ (cs : List (Option Nat)) (a : Nat),
      List.Chain' (· ≤ ·) (runCloseDelays maxA a cs) := by
  intro cs
  induction cs with
  | nil => intro a; simp [runCloseDelays]
  | cons c cs ih =>
    intro a
    by_cases h401 : c = some 401
    · subst h401
      by_cases hle : a + 1 ≤ maxA
      · rw [runCloseDelays_cons_401_le maxA a cs hle]
        refine List.chain'_cons'.mpr ⟨?_, ih (a + 1)⟩
        intro b hb
        have hmem : b ∈ runCloseDelays maxA (a + 1) cs :=
          List.mem_of_mem_head? hb
        have := runCloseDelays_lower_bound maxA cs (a + 1) b hmem
        omega
      · rw [runCloseDelays_cons_401_gt maxA a cs hle]
        exact ih (a + 1)
    · rw [runCloseDelays_cons_other maxA a c cs h401]
      exact ih a

/-- At most maxA - a further reconnects are scheduled from counter value a. -/
theorem runCloseDelays_length (maxA : Nat) :
    ∀ (cs : List (Option Nat)) (a : Nat),
      (runCloseDelays maxA a cs).length ≤ maxA - a := by
  intro cs
  induction cs with
  | nil => intro a; simp [runCloseDelays]
  | cons c cs ih =>
    intro a
    by_cases h401 : c = some 401
    · subst h401
      by_cases hle : a + 1 ≤ maxA
      · rw [runCloseDelays_cons_401_le maxA a cs hle]
        have := ih (a + 1)
        simp only [List.length_cons]
        omega
      · rw [runCloseDelays_cons_401_gt maxA a cs hle]
        have := ih (a + 1)
        omega
    · rw [runCloseDelays_cons_other maxA a c cs h401]
      exact ih a

/-- C5: over every run of consecutive closes with no intervening open, the
scheduled reconnect delays are non-decreasing; starting from a zero counter at
most the configured maximum number of reconnects is scheduled; and an open
event resets the reconnect-attempt counter to zero. -/
theorem c5_backoff_monotone_bounded_reset :
    (∀ (maxA a : Nat) (cs : List (Option Nat)),
        List.Chain' (· ≤ ·) (runCloseDelays maxA a cs)) ∧
    (∀ (maxA : Nat) (cs : List (Option Nat)),
        (runCloseDelays maxA 0 cs).length ≤ maxA) ∧
    (∀ maxA a, connUpdateStep maxA a ConnEvent.opened = (0, none)) := by
  refine ⟨fun maxA a cs => runCloseDelays_chain maxA cs a,
          fun maxA cs => ?_, fun maxA a => rfl⟩
  have := runCloseDelays_length maxA cs 0
  omega

/-- Byte-level base64 decodes what it encodes, for byte values below 256. -/
theorem b64_roundtrip : ∀ (l : List Nat), (∀ x ∈ l, x < 256) →
    b64decode (b64encode l) = l
  | [], _ => rfl
  | [a], h => by
    have ha : a < 256 := h a (by simp)
    simp only [b64encode, b64decode, List.cons.injEq, and_true]
    omega
  | [a, b], h => by
    have ha : a < 256 := h a (by simp)
    have hb : b < 256 := h b (by simp)
    simp only [b64encode, b64decode, List.cons.injEq, and_true]
    constructor
    · omega
    · omega
  | a :: b :: c :: rest, h => by
    have ha : a < 256 := h a (by simp)
    have hb : b < 256 := h b (by simp)
    have hc : c < 256 := h c (by simp)
    have ih := b64_roundtrip rest fun x hx => h x (by simp [hx])
    simp only [b64encode, b64decode, ih, List.cons.injEq]
    refine ⟨by omega, by omega, by omega, trivial⟩

/-- Upserting a path absent from the collection appends the document. -/
theorem upsertAuthFile_notmem (docs : List AuthFileDoc) (p : String)
    (c : List Nat) (h : ∀ d ∈ docs, d.path ≠ p) :
    upsertAuthFile docs p c = docs ++ [⟨p, c⟩] := by
  induction docs with
  | nil => rfl
  | cons d ds ih =>
    have hd : d.path ≠ p := h d (by simp)
    simp only [upsertAuthFile, if_neg hd, List.cons_append]
    rw [ih fun x hx => h x (by simp [hx])]

/-- Persisting files with pairwise-distinct paths, none already stored,
appends one encoded document per file, in order. -/
theorem persistAuthFilesToMongo_append (files : List (String × List Nat)) :
    ∀ (docs : List AuthFileDoc),
    (∀ f ∈ files, ∀ d ∈ docs, d.path ≠ f.1) →
    List.Pairwise (fun f g => f.1 ≠ g.1) files →
    persistAuthFilesToMongo docs files
      = docs ++ files.map fun f => ⟨f.1, b64encode f.2⟩ := by
  induction files with
  | nil => intro docs _ _; simp [persistAuthFilesToMongo]
  | cons f fs ih =>
    intro docs hdisj hpw
    have h1 : ∀ d ∈ docs, d.path ≠ f.1 := fun d hd => hdisj f (by simp) d hd
    have hpw2 := List.pairwise_cons.mp hpw
    have hdisj2 : ∀ g ∈ fs, ∀ d ∈ docs ++ [(⟨f.1, b64encode f.2⟩ : AuthFileDoc)],
        d.path ≠ g.1 := by
      intro g hg d hd
      rcases List.mem_append.mp hd with hmem | hmem
      · exact hdisj g (by simp [hg]) d hmem
      · have : d = (⟨f.1, b64encode f.2⟩ : AuthFileDoc) := by simpa using hmem
        subst this
        simpa using hpw2.1 g hg
    have ihx := ih (docs ++ [(⟨f.1, b64encode f.2⟩ : AuthFileDoc)]) hdisj2 hpw2.2
    simp only [persistAuthFilesToMongo, List.foldl_cons] at ihx ⊢
    rw [upsertAuthFile_notmem docs f.1 (b64encode f.2) h1, ihx]
    simp

/-- Restoring is exactly mapping each document back to a decoded file. -/
theorem restoreAuthFilesFromMongo_eq_map (docs : List AuthFileDoc) :
    restoreAuthFilesFromMongo docs
      = docs.map fun d => (d.path, b64decode d.contentBase64) := by
  cases docs <;> rfl

/-- Decoding the documents produced from a snapshot reproduces the snapshot. -/
theorem restore_of_persisted_map (l : List (String × List Nat))
    (hb : ∀ f ∈ l, ∀ x ∈ f.2, x < 256) :
    ((l.map fun f => (⟨f.1, b64encode f.2⟩ : AuthFileDoc)).map
      fun d => (d.path, b64decode d.contentBase64)) = l := by
  induction l with
  | nil => rfl
  | cons f fs ih =>
    simp only [List.map_cons, List.cons.injEq]
    refine ⟨?_, ih fun g hg => hb g (by simp [hg])⟩
    simp [b64_roundtrip f.2 (hb f (by simp))]

/-- C8: persisting a credential snapshot (relative paths with byte contents,
paths pairwise distinct) into an empty AuthFile collection and restoring it
after a restart reproduces exactly the original file contents, so the
transport is handed the same snapshot it produced. -/
theorem c8_auth_roundtrip (files : List (String × List Nat))
    (hbytes : ∀ f ∈ files, ∀ x ∈ f.2, x < 256)
    (hpaths : List.Pairwise (fun f g => f.1 ≠ g.1) files) :
    restoreAuthFilesFromMongo (persistAuthFilesToMongo [] files) = files := by
  rw [persistAuthFilesToMongo_append files [] (by simp) hpaths]
  rw [List.nil_append, restoreAuthFilesFromMongo_eq_map]
  exact restore_of_persisted_map files hbytes

/-- Witness for c8_auth_roundtrip on a two-file snapshot. -/
theorem c8_auth_roundtrip_witness :
    restoreAuthFilesFromMongo
      (persistAuthFilesToMongo []
        [("creds.json", [123, 34, 255, 0]), ("app-state.json", [7])])
      = [("creds.json", [123, 34, 255, 0]), ("app-state.json", [7])] :=
  c8_auth_roundtrip [("creds.json", [123, 34, 255, 0]), ("app-state.json", [7])]
    (by decide) (by decide)

/-- The fallback branch always acknowledges exactly once. -/
theorem rhFallback_one_ack (env : RhEnv) (t : String) :
    (rhFallback env t).acks.length = 1 := by
  unfold rhFallback
  cases env.whatsappId with
  | none => rfl
  | some wid =>
    by_cases h1 : env.waSockPresent
    · by_cases h2 : env.fallbackSendOk
      · simp [h1, h2]
      · simp [h1, h2]
    · simp [h1]

/-- C6 amended: in the registerHandlers path (src/src/telegram.js), every
message of the configured chat with nonempty trimmed text produces exactly
one acknowledgment, whatever the routing outcome; in the webhook
handleTelegramUpdate path a mapping miss is only logged server-side, with no
user-visible notice (see the counterexample). -/
theorem c6_amended_exactly_one_ack (env : RhEnv) (m : RhMsg) (t : String)
    (hchat : toString m.chatId = env.configChatId) (htext : rhText m = some t) :
    (registerHandlersOnMessage env m).acks.length = 1 := by
  rcases hrm : m.replyToMessageId with _ | oid
  · simp [registerHandlersOnMessage, hchat, htext, hrm]
  · rcases hfind : env.mappings.find? fun r => r.telegramMsgId == oid
      with _ | mapping
    · simp [registerHandlersOnMessage, hchat, htext, hrm, hfind,
        rhFallback_one_ack]
    · by_cases hws : env.waSockPresent
      · by_cases hok : env.waSendOk
        · simp [registerHandlersOnMessage, hchat, htext, hrm, hfind, hws, hok]
        · simp [registerHandlersOnMessage, hchat, htext, hrm, hfind, hws, hok]
      · simp [registerHandlersOnMessage, hchat, htext, hrm, hfind, hws,
          rhFallback_one_ack]

/-- Witness for c6_amended_exactly_one_ack: a reply in the configured chat
whose mapping lookup misses still yields exactly one acknowledgment. -/
theorem c6_amended_witness :
    (registerHandlersOnMessage
      { configChatId := "5", mappings := [], waSockPresent := true,
        waSendOk := true, whatsappId := none, fallbackSendOk := true }
      { chatId := 5, text := some "hi", replyToMessageId := some 9 }).acks.length
      = 1 :=
  c6_amended_exactly_one_ack
    { configChatId := "5", mappings := [], waSockPresent := true,
      waSendOk := true, whatsappId := none, fallbackSendOk := true }
    { chatId := 5, text := some "hi", replyToMessageId := some 9 }
    "hi" (by decide) (by decide)

/-- C9: a reply update that resolves a mapping but carries neither text nor
caption performs no WhatsApp send and no Telegram acknowledgment, and neither
throws nor logs an error: it is silently dropped right after the mapping
lookup. -/
theorem c9_empty_reply_silently_dropped (env : HandlerEnv) (u : TgUpdate)
    (msg : TgMessage) (rid : Nat) (mapping : MessageMapRec)
    (hmsg : jsOrOpt u.message u.edited_message = some msg)
    (hrid : msg.replyToMessageId = some rid) (hrid0 : rid ≠ 0)
    (hfound : findMapping env.mappings (chatKey msg) rid = some mapping)
    (htext : msg.text = none ∨ msg.text = some "")
    (hcap : msg.caption = none ∨ msg.caption = some "") :
    handleTelegramUpdate env (some u) = (⟨[], []⟩, none, Except.ok ()) := by
  have hrt : replyTextOf msg = "" := by
    unfold replyTextOf jsStringOr
    rcases htext with h | h <;> rcases hcap with h2 | h2 <;> simp [h, h2]
  unfold handleTelegramUpdate handleTgBody
  simp [hmsg, hrid, hrid0, hfound, hrt]

/-- Witness for c9_empty_reply_silently_dropped: a concrete mapped reply with
no text and no caption produces no effect at all. -/
theorem c9_witness :
    handleTelegramUpdate
      { mappings := [⟨"wa1", "M1", "5", 7, 100⟩], processedLedger := [],
        waSendOk := true, botTokenSet := true, tgSendOk := true }
      (some ⟨some ⟨10, some 5, some 7, none, none⟩, none⟩)
      = (⟨[], []⟩, none, Except.ok ()) :=
  c9_empty_reply_silently_dropped
    { mappings := [⟨"wa1", "M1", "5", 7, 100⟩], processedLedger := [],
      waSendOk := true, botTokenSet := true, tgSendOk := true }
    ⟨some ⟨10, some 5, some 7, none, none⟩, none⟩
    ⟨10, some 5, some 7, none, none⟩ 7 ⟨"wa1", "M1", "5", 7, 100⟩
    (by decide) (by decide) (by decide) (by decide)
    (Or.inl rfl) (Or.inl rfl)
